import Mathlib

/-
Verification of the signaling state machine of src/src/webrtc-gas.js
(the WebRTCGAS.Client class) against its natural-language specification.

The embedding is shallow: the mutable Client object becomes an explicit
record, each method becomes a function from the pre-state (plus the
responses and engine outcomes that the method awaits) to a post-state
together with the list of events it emits.  Awaited operations that can
reject are modelled with Except; a JavaScript throw that a method lets
escape is modelled by the ok flag of the result.

Vocabulary mapping between the specification and the source:
  "waiting_for_offer" (spec)   = the status string "wait_offer"   (source)
  "registering" (spec)         = the status string "register"     (source)
  "session not found" (spec)   = the message  "ユーザーが見つかりません" (source)
  Processing Flag (spec)       = the field _isProcessingSignal    (source)
  Transport Engine session     = the field _peerConnection        (source)
-/

namespace WebRTCGAS

/-- One entry of the match-candidate list, an object with fields id and name. -/
structure MatchEntry where
  id : String
  name : String
deriving DecidableEq, Repr

/-- The Transport Engine session handle (RTCPeerConnection).  Only the
presence of the handle and its local description are observable in this
model; all other engine state is external. -/
structure PeerConnection where
  localDescription : Option String := none
deriving DecidableEq, Repr

/-- The data channel handle.  Only readyState is observable. -/
structure DataChannel where
  readyState : String := "connecting"
deriving DecidableEq, Repr

/-- Consumer-facing events, in emission order.  The error payload is an
opaque exception object in the source and carries no data here. -/
inductive Event where
  | registered (id : Option String) (matchList : List MatchEntry)
  | matchFound (matchList : List MatchEntry)
  | offer (peerId : Option String) (peerName : String)
  | connected (peerId peerName : Option String)
  | disconnected (reason : String)
  | message (data : String)
  | error
  | reset (nextStatus : String) (message : Option String)
deriving DecidableEq, Repr

/-- The state of a WebRTCGAS.Client instance: the public fields and the
internal fields set by the constructor (lines 95-116 of the source).
The polling timer handle is modelled by whether it is non-null. -/
structure Client where
  apiUrl : String := "https://gas"
  name : String := "Alice"
  id : Option String := none
  globalIp : String := ""
  friendList : List String := []
  passphrase : String := ""
  pollingInterval : Nat := 2000
  status : String := "idle"
  peerId : Option String := none
  peerName : Option String := none
  matchList : List MatchEntry := []
  isConnected : Bool := false
  _pollingTimer : Bool := false
  _peerConnection : Option PeerConnection := none
  _dataChannel : Option DataChannel := none
  _pendingCandidates : List String := []
  _isOfferer : Bool := false
  _isProcessingSignal : Bool := false
deriving DecidableEq, Repr

/-- JavaScript truthiness of a nullable string: null/undefined and the
empty string are falsy. -/
def optStrTruthy : Option String → Bool
  | none => false
  | some s => !(s == "")

/-- An inbound signaling frame from the GAS endpoint.  Absent optional
fields are none; an absent match_list behaves like the empty list in
every use site (the source guards with length > 0 or defaults to []). -/
structure Response where
  success : Bool
  message : Option String := none
  next_status : String := ""
  id : Option String := none
  match_list : List MatchEntry := []
  type : Option String := none
  sdp : Option String := none
  candidates : List String := []
  peer_id : Option String := none
  peer_name : Option String := none
deriving DecidableEq, Repr

/-- The result of one client method: post-state, events emitted, the
sequence of assignments the method makes to _isProcessingSignal in
program order, and whether the method returned normally (ok = false
models a throw or rejected promise escaping the method). -/
structure OpResult where
  state : Client
  events : List Event := []
  flagWrites : List Bool := []
  ok : Bool := true
deriving Repr

/-- disconnect(), source lines 233-253: stop polling, close and null the
channel and the peer connection, set status "disconnected", clear the
connection fields and the processing flag, then emit disconnected
unconditionally. -/
def disconnect (s : Client) : OpResult :=
  { state := { s with
      _pollingTimer := false,
      _dataChannel := none,
      _peerConnection := none,
      status := "disconnected",
      isConnected := false,
      peerId := none,
      peerName := none,
      _isProcessingSignal := false },
    events := [Event.disconnected "user"],
    flagWrites := [false],
    ok := true }

/-- register(), source lines 123-163, applied to the register exchange
outcome.  Except.error models a network throw from _apiCall.  On a
failed response the method emits error and rethrows without touching
state; on success it stores the issued id (when truthy), adopts
next_status, replaces the match list, emits registered and possibly
matchFound, and starts polling. -/
def register (s : Client) (regr : Except Unit Response) : OpResult :=
  match regr with
  | Except.error _ => { state := s, events := [Event.error], ok := false }
  | Except.ok r =>
    if r.success = false then
      { state := s, events := [Event.error], ok := false }
    else
      let s1 := { s with
        id := if optStrTruthy r.id then r.id else s.id,
        status := r.next_status,
        matchList := r.match_list,
        _pollingTimer := true }
      { state := s1,
        events := [Event.registered s1.id s1.matchList] ++
          (if s1.matchList.isEmpty then [] else [Event.matchFound s1.matchList]),
        ok := true }

/-- Inputs consumed by connect(peerId): the outcome of the Transport
Engine calls, the local description produced, the candidates gathered
during the bounded wait, and the offer publish exchange. -/
structure ConnectInput where
  engineOk : Bool := true
  offerSdp : String := "offer-sdp"
  gathered : List String := []
  offerResponse : Except Unit Response := Except.error ()
deriving Repr

/-- connect(peerId), source lines 170-228.  Sets the processing flag on
entry and clears it in the finally block on every path.  Engine failure
is modelled at createOffer, after the peer connection and the data
channel exist; on any failure the method emits error and rethrows. -/
def connect (s : Client) (peerId : String) (ci : ConnectInput) : OpResult :=
  let s0 := { s with
    _isProcessingSignal := true,
    peerId := some peerId,
    _isOfferer := true,
    peerName := match s.matchList.find? (fun (p : MatchEntry) => p.id == peerId) with
                | some p => some p.name
                | none => s.peerName }
  if ci.engineOk = false then
    let s1 := { s0 with
      _peerConnection := some { localDescription := none },
      _pendingCandidates := [],
      _dataChannel := some { readyState := "connecting" } }
    { state := { s1 with _isProcessingSignal := false },
      events := [Event.error], flagWrites := [true, false], ok := false }
  else
    let s1 := { s0 with
      _peerConnection := some { localDescription := some ci.offerSdp },
      _dataChannel := some { readyState := "connecting" },
      _pendingCandidates := ci.gathered }
    match ci.offerResponse with
    | Except.error _ =>
      { state := { s1 with _isProcessingSignal := false },
        events := [Event.error], flagWrites := [true, false], ok := false }
    | Except.ok r =>
      if r.success = false then
        { state := { s1 with _isProcessingSignal := false },
          events := [Event.error], flagWrites := [true, false], ok := false }
      else
        { state := { s1 with
            status := r.next_status,
            _pendingCandidates := [],
            _isProcessingSignal := false },
          events := [], flagWrites := [true, false], ok := true }

/-- Inputs consumed by _handleOffer: the Transport Engine outcomes, the
answer description produced, the candidates gathered during the bounded
wait, and the answer publish exchange. -/
structure OfferInput where
  engineOk : Bool := true
  answerSdp : String := "answer-sdp"
  gathered : List String := []
  answerResponse : Except Unit Response := Except.error ()
deriving Repr

/-- _handleOffer(response), source lines 371-429.  Sets the processing
flag on entry and clears it in the finally block on every path.  The
peer identity is taken from the frame, the offer event fires before any
engine call, a fresh peer connection is created, and the answer publish
response is not checked for success.  Failures are rethrown to the
caller (the polling tick) without emitting error here; engine failure
is modelled at setRemoteDescription, after the peer connection exists. -/
def _handleOffer (s : Client) (r : Response) (oi : OfferInput) : OpResult :=
  let s0 := { s with
    _isProcessingSignal := true,
    peerId := r.peer_id,
    peerName := some (r.peer_name.getD ""),
    _isOfferer := false }
  let evOffer := Event.offer r.peer_id (r.peer_name.getD "")
  let s1 := { s0 with
    _peerConnection := some { localDescription := none },
    _pendingCandidates := [] }
  if oi.engineOk = false then
    { state := { s1 with _isProcessingSignal := false },
      events := [evOffer], flagWrites := [true, false], ok := false }
  else
    let s2 := { s1 with
      _peerConnection := some { localDescription := some oi.answerSdp },
      _pendingCandidates := oi.gathered }
    match oi.answerResponse with
    | Except.error _ =>
      { state := { s2 with _isProcessingSignal := false },
        events := [evOffer], flagWrites := [true, false], ok := false }
    | Except.ok _ =>
      { state := { s2 with _pendingCandidates := [], _isProcessingSignal := false },
        events := [evOffer], flagWrites := [true, false], ok := true }

/-- _handleAnswer(response), source lines 435-457.  Sets the processing
flag on entry and clears it in the finally block.  It only drives the
existing peer connection (setRemoteDescription, addIceCandidate): a
missing connection throws (TypeError on null), and an engine rejection
is rethrown; no client field other than the flag changes. -/
def _handleAnswer (s : Client) (_r : Response) (engineOk : Bool) : OpResult :=
  { state := { s with _isProcessingSignal := false },
    events := [],
    flagWrites := [true, false],
    ok := s._peerConnection.isSome && engineOk }

/-- _handleIce(response), source lines 463-469.  Applies bundled
candidates to the existing connection when both are present; it never
touches the processing flag and changes no client field.  An engine
rejection while adding a candidate propagates to the caller. -/
def _handleIce (s : Client) (r : Response) (engineOk : Bool) : OpResult :=
  if r.candidates.isEmpty = false && s._peerConnection.isSome then
    { state := s, events := [], flagWrites := [], ok := engineOk }
  else
    { state := s, events := [], flagWrites := [], ok := true }

/-- Cleanup performed by _handleAutoReconnect before re-registering,
source lines 589-611: close and null the channel and connection, clear
id and all peer/session fields (the name is kept), stop polling. -/
def reconnectCleanup (s : Client) : Client :=
  { s with
    _dataChannel := none,
    _peerConnection := none,
    id := none,
    peerId := none,
    peerName := none,
    matchList := [],
    _pendingCandidates := [],
    _isOfferer := false,
    isConnected := false,
    _isProcessingSignal := false,
    _pollingTimer := false }

/-- _handleAutoReconnect(), source lines 586-621: cleanup, then call
register() again; a failed re-registration is caught here and reported
with one more error event (register itself already emitted one). -/
def _handleAutoReconnect (s : Client) (regr : Except Unit Response) : Client × List Event :=
  let r := register (reconnectCleanup s) regr
  if r.ok then (r.state, r.events) else (r.state, r.events ++ [Event.error])

/-- _handleRecovery(), source lines 628-651: close and null the channel
and connection, clear the peer identity, match list and pending
candidates; id, status and the polling timer are untouched and no
registration happens. -/
def _handleRecovery (s : Client) : Client :=
  { s with
    _dataChannel := none,
    _peerConnection := none,
    peerId := none,
    peerName := none,
    matchList := [],
    _pendingCandidates := [],
    _isOfferer := false,
    isConnected := false,
    _isProcessingSignal := false }

/-- _handleReset(response), source lines 657-690: close and null the
channel and connection, clear the peer fields and the flag, stop
polling, set status "idle", clear id, and emit a reset event carrying
the servers next_status and message.  No re-registration happens; the
isConnected field is not touched by this handler. -/
def _handleReset (s : Client) (r : Response) : Client × List Event :=
  ({ s with
      _dataChannel := none,
      _peerConnection := none,
      peerId := none,
      peerName := none,
      matchList := [],
      _pendingCandidates := [],
      _isOfferer := false,
      _isProcessingSignal := false,
      _pollingTimer := false,
      status := "idle",
      id := none },
   [Event.reset r.next_status r.message])

/-- The failed-poll condition that triggers automatic re-registration,
source line 325. -/
def autoReconnectCond (r : Response) : Bool :=
  r.next_status == "register" || r.message == some "ユーザーが見つかりません"

/-- The anomaly condition that triggers soft recovery, source line 333:
the server put the client back to wait_offer while a peer is assigned
and no signal is being processed.  Truthiness of peerId follows
JavaScript (null and "" are falsy). -/
def recoveryCond (s : Client) (r : Response) : Bool :=
  r.next_status == "wait_offer" && optStrTruthy s.peerId && !s._isProcessingSignal

/-- The status adoption step at the end of a successful poll, source
lines 356-359: adopt next_status unless the local status is already
connected. -/
def adoptStatus (s : Client) (r : Response) : Client :=
  if s.status == "connected" then s else { s with status := r.next_status }

/-- Inputs consumed by one polling tick: the polling exchange itself,
the register exchange used if the tick auto-reconnects, and the
inputs of the offer/answer/ice handlers it may route to. -/
structure PollInput where
  apiResult : Except Unit Response
  regResult : Except Unit Response := Except.error ()
  offerInput : OfferInput := {}
  answerEngineOk : Bool := true
  iceEngineOk : Bool := true
deriving Repr

/-- The observable outcome of one polling tick: post-state, events,
whether register() was invoked during the tick, and whether the
surrounding try/catch of _poll caught (and logged) an exception. -/
structure PollResult where
  state : Client
  events : List Event := []
  registerCalled : Bool := false
  caughtError : Bool := false
deriving Repr

/-- _poll(), source lines 309-365, one tick.  A network throw of the
polling call is caught at the top.  A failed response either triggers
auto-reconnection or is ignored.  A successful response first runs the
soft-recovery check, is then routed by type (offer, answer, ice), or
else through the match-list comparison (the source compares the lists
by JSON.stringify, which on these id/name records coincides with
structural equality), and finally the status adoption step runs; an
exception thrown by a routed handler skips the rest of the tick and is
caught and logged by the surrounding catch. -/
def _poll (s : Client) (i : PollInput) : PollResult :=
  match i.apiResult with
  | Except.error _ => { state := s, caughtError := true }
  | Except.ok r =>
    if r.success = false then
      if autoReconnectCond r then
        let p := _handleAutoReconnect s i.regResult
        { state := p.1, events := p.2, registerCalled := true }
      else
        { state := s }
    else
      let s1 := if recoveryCond s r then _handleRecovery s else s
      if r.type == some "offer" then
        let o := _handleOffer s1 r i.offerInput
        if o.ok then { state := adoptStatus o.state r, events := o.events }
        else { state := o.state, events := o.events, caughtError := true }
      else if r.type == some "answer" then
        let o := _handleAnswer s1 r i.answerEngineOk
        if o.ok then { state := adoptStatus o.state r, events := o.events }
        else { state := o.state, events := o.events, caughtError := true }
      else if r.type == some "ice" then
        let o := _handleIce s1 r i.iceEngineOk
        if o.ok then { state := adoptStatus o.state r, events := o.events }
        else { state := o.state, events := o.events, caughtError := true }
      else if r.match_list.isEmpty = false then
        if s1.matchList == r.match_list then
          { state := adoptStatus s1 r }
        else
          { state := adoptStatus { s1 with matchList := r.match_list } r,
            events := [Event.matchFound r.match_list] }
      else
        { state := adoptStatus s1 r }

/-- _waitForIceCandidates(), source lines 546-558, modelled over the
schedule of ice-gathering state-change events (time in ms, new state).
Two resolvers race: a timer that fires at 1000, and the state-change
handler that resolves when the gathering state is complete; the promise
settles at the earliest resolver. -/
def _waitForIceCandidates (stateChanges : List (Nat × String)) : Nat :=
  ((stateChanges.filter (fun e => e.2 == "complete")).map Prod.fst).foldl Nat.min 1000

/-- JSON values as passed to send() and JSON.stringify. -/
inductive Json where
  | null
  | bool (b : Bool)
  | num (n : Int)
  | str (s : String)
  | arr (xs : List Json)
  | obj (fields : List (String × Json))
deriving Repr

/-- Escape of one character inside a JSON string literal. -/
def jsonEscapeChar (c : Char) : String :=
  if c = '"' then "\\\"" else if c = '\\' then "\\\\" else String.singleton c

/-- Escape of a JSON string body. -/
def jsonEscape (s : String) : String :=
  String.join (s.toList.map jsonEscapeChar)

mutual

/-- JSON.stringify as used by send(). -/
def jsonStringify : Json → String
  | Json.null => "null"
  | Json.bool b => if b then "true" else "false"
  | Json.num n => toString n
  | Json.str s => "\"" ++ jsonEscape s ++ "\""
  | Json.arr xs => "[" ++ jsonStringifyArr xs ++ "]"
  | Json.obj fs => "\x7b" ++ jsonStringifyObj fs ++ "\x7d"

/-- Comma-joined serialization of array elements. -/
def jsonStringifyArr : List Json → String
  | [] => ""
  | [x] => jsonStringify x
  | x :: y :: xs => jsonStringify x ++ "," ++ jsonStringifyArr (y :: xs)

/-- Comma-joined serialization of object members. -/
def jsonStringifyObj : List (String × Json) → String
  | [] => ""
  | [(k, v)] => "\"" ++ jsonEscape k ++ "\":" ++ jsonStringify v
  | (k, v) :: f :: fs =>
    "\"" ++ jsonEscape k ++ "\":" ++ jsonStringify v ++ "," ++ jsonStringifyObj (f :: fs)

end

/-- send(data), source lines 259-266: throw unless a data channel exists
with readyState open; otherwise transmit JSON.stringify(data).  The
result carries the unchanged client state and the transmitted text. -/
def send (s : Client) (d : Json) : Except String (Client × String) :=
  match s._dataChannel with
  | none => Except.error "接続されていません"
  | some ch =>
    if ch.readyState == "open" then Except.ok (s, jsonStringify d)
    else Except.error "接続されていません"

/-- Whether a register exchange outcome counts as a failed
re-registration (network throw or unsuccessful response). -/
def regFailed : Except Unit Response → Bool
  | Except.error _ => true
  | Except.ok r => !r.success

/-- A connected client state: direct channel open, peer assigned. -/
def c1s : Client :=
  { id := some "u1", status := "connected", peerId := some "u2",
    peerName := some "Bob", isConnected := true, _pollingTimer := true,
    _peerConnection := some {}, _dataChannel := some { readyState := "open" } }

/-- A failed polling response instructing a return to register. -/
def c1r : Response := { success := false, next_status := "register" }

/-- The register exchange the auto-reconnect performs, succeeding with a
fresh id and the wait_offer phase. -/
def c1reg : Response :=
  { success := true, next_status := "wait_offer", id := some "u9" }

/-- Tick input combining the failed poll with the successful re-register. -/
def c1i : PollInput :=
  { apiResult := Except.ok c1r, regResult := Except.ok c1reg }

/-- A connected client receiving an ordinary successful poll. -/
def c1ws : Client :=
  { id := some "u1", status := "connected", peerId := some "u2",
    isConnected := true }

/-- A successful polling response carrying a stale wait_offer phase. -/
def c1wr : Response := { success := true, next_status := "wait_offer" }

/-- Tick input for the stale successful poll. -/
def c1wi : PollInput := { apiResult := Except.ok c1wr }

/-- A registered, polling client. -/
def c2s : Client :=
  { id := some "u1", status := "wait_offer", _pollingTimer := true }

/-- The session-not-found failure response. -/
def c2r : Response :=
  { success := false, message := some "ユーザーが見つかりません" }

/-- A successful re-registration outcome. -/
def c2reg : Response :=
  { success := true, next_status := "wait_offer", id := some "u7" }

/-- Tick input for the session-not-found poll. -/
def c2i : PollInput :=
  { apiResult := Except.ok c2r, regResult := Except.ok c2reg }

/-- A client mid-negotiation: peer assigned, engine session present. -/
def c3s : Client :=
  { id := some "u1", status := "offer_sent", peerId := some "u2",
    peerName := some "Bob", matchList := [{ id := "u2", name := "Bob" }],
    _pollingTimer := true, _peerConnection := some {},
    _dataChannel := some { readyState := "open" },
    _pendingCandidates := ["cand1"] }

/-- The anomaly response: success with the wait_offer phase and no
type or match list. -/
def c3r : Response := { success := true, next_status := "wait_offer" }

/-- Tick input for the anomaly response. -/
def c3i : PollInput := { apiResult := Except.ok c3r }

/-- A client holding an engine session, used for the ice handler. -/
def c4s : Client := { id := some "u1", _peerConnection := some {} }

/-- An ice frame carrying one candidate. -/
def c4r : Response :=
  { success := true, type := some "ice", candidates := ["cand"] }

/-- A connected client about to disconnect. -/
def c5s : Client :=
  { id := some "u1", status := "connected", peerId := some "u2",
    peerName := some "Bob", isConnected := true,
    _peerConnection := some {}, _dataChannel := some { readyState := "open" } }

/-- A registered client with an empty match list. -/
def c6s : Client :=
  { id := some "u1", status := "wait_answer", _pollingTimer := true }

/-- An ice-typed successful response that also carries a non-empty
match-candidate list differing from the held one. -/
def c6r : Response :=
  { success := true, next_status := "wait_answer", type := some "ice",
    match_list := [{ id := "u2", name := "Bob" }] }

/-- Tick input for the ice-typed response with a match list. -/
def c6i : PollInput := { apiResult := Except.ok c6r }

/-- A registered client with an empty match list, for the match update. -/
def c6ws : Client :=
  { id := some "u1", status := "wait_offer", _pollingTimer := true }

/-- A successful response carrying a fresh one-element match list. -/
def c6wr : Response :=
  { success := true, next_status := "wait_offer",
    match_list := [{ id := "u2", name := "Bob" }] }

/-- Tick input for the fresh match list. -/
def c6wi : PollInput := { apiResult := Except.ok c6wr }

/-- A registered, polling client whose poll request throws. -/
def c7s : Client :=
  { id := some "u1", status := "wait_offer", _pollingTimer := true }

/-- Tick input whose polling exchange throws on the network. -/
def c7i : PollInput := { apiResult := Except.error () }

/-- A connected client with an open data channel, for send. -/
def c10s : Client :=
  { id := some "u1", status := "connected",
    _dataChannel := some { readyState := "open" } }

lemma handleOffer_status (s : Client) (r : Response) (oi : OfferInput) :
    (_handleOffer s r oi).state.status = s.status := by
  rcases oi with ⟨eok, asdp, g, ar⟩
  cases eok <;> cases ar <;> rfl

lemma handleOffer_timer (s : Client) (r : Response) (oi : OfferInput) :
    (_handleOffer s r oi).state._pollingTimer = s._pollingTimer := by
  rcases oi with ⟨eok, asdp, g, ar⟩
  cases eok <;> cases ar <;> rfl

lemma handleOffer_flagWrites (s : Client) (r : Response) (oi : OfferInput) :
    (_handleOffer s r oi).flagWrites = [true, false] := by
  rcases oi with ⟨eok, asdp, g, ar⟩
  cases eok <;> cases ar <;> rfl

lemma handleOffer_flagOff (s : Client) (r : Response) (oi : OfferInput) :
    (_handleOffer s r oi).state._isProcessingSignal = false := by
  rcases oi with ⟨eok, asdp, g, ar⟩
  cases eok <;> cases ar <;> rfl

lemma handleIce_state (s : Client) (r : Response) (b : Bool) :
    (_handleIce s r b).state = s := by
  unfold _handleIce
  split <;> rfl

lemma handleIce_flagWrites (s : Client) (r : Response) (b : Bool) :
    (_handleIce s r b).flagWrites = [] := by
  unfold _handleIce
  split <;> rfl

lemma adoptStatus_status_of_connected (s : Client) (r : Response)
    (h : s.status = "connected") : (adoptStatus s r).status = "connected" := by
  simp [adoptStatus, h]

lemma adoptStatus_peerId (s : Client) (r : Response) :
    (adoptStatus s r).peerId = s.peerId := by
  unfold adoptStatus
  split <;> rfl

lemma adoptStatus_peerName (s : Client) (r : Response) :
    (adoptStatus s r).peerName = s.peerName := by
  unfold adoptStatus
  split <;> rfl

lemma adoptStatus_matchList (s : Client) (r : Response) :
    (adoptStatus s r).matchList = s.matchList := by
  unfold adoptStatus
  split <;> rfl

lemma adoptStatus_id (s : Client) (r : Response) :
    (adoptStatus s r).id = s.id := by
  unfold adoptStatus
  split <;> rfl

lemma adoptStatus_timer (s : Client) (r : Response) :
    (adoptStatus s r)._pollingTimer = s._pollingTimer := by
  unfold adoptStatus
  split <;> rfl

lemma adoptStatus_pending (s : Client) (r : Response) :
    (adoptStatus s r)._pendingCandidates = s._pendingCandidates := by
  unfold adoptStatus
  split <;> rfl

lemma adoptStatus_pc (s : Client) (r : Response) :
    (adoptStatus s r)._peerConnection = s._peerConnection := by
  unfold adoptStatus
  split <;> rfl

lemma adoptStatus_dc (s : Client) (r : Response) :
    (adoptStatus s r)._dataChannel = s._dataChannel := by
  unfold adoptStatus
  split <;> rfl

lemma recoveryOrNot_status (s : Client) (r : Response) :
    (if recoveryCond s r then _handleRecovery s else s).status = s.status := by
  split <;> rfl

lemma recoveryOrNot_timer (s : Client) (r : Response) :
    (if recoveryCond s r then _handleRecovery s else s)._pollingTimer =
      s._pollingTimer := by
  split <;> rfl

lemma foldl_min_le_init (l : List Nat) (a : Nat) : l.foldl Nat.min a ≤ a := by
  induction l generalizing a with
  | nil => exact Nat.le_refl a
  | cons x xs ih => exact Nat.le_trans (ih (Nat.min a x)) (Nat.min_le_left a x)

lemma foldl_min_le_mem (l : List Nat) (t : Nat) (ht : t ∈ l) :
    ∀ a, l.foldl Nat.min a ≤ t := by
  induction ht with
  | head xs =>
    intro a
    exact Nat.le_trans (foldl_min_le_init xs (Nat.min a t)) (Nat.min_le_right a t)
  | tail y hmem ih =>
    intro a
    exact ih (Nat.min a _)

lemma foldl_min_eq_init_or_mem (l : List Nat) :
    ∀ a, l.foldl Nat.min a = a ∨ l.foldl Nat.min a ∈ l := by
  induction l with
  | nil => intro a; exact Or.inl rfl
  | cons x xs ih =>
    intro a
    have hmin : Nat.min a x = a ∨ Nat.min a x = x := by
      rcases Nat.le_total a x with h1 | h1
      · exact Or.inl (Nat.min_eq_left h1)
      · exact Or.inr (Nat.min_eq_right h1)
    rcases ih (Nat.min a x) with h | h
    · rcases hmin with hm | hm
      · exact Or.inl (by rw [List.foldl_cons, h, hm])
      · refine Or.inr ?_
        rw [List.foldl_cons, h, hm]
        exact List.mem_cons_self x xs
    · exact Or.inr (List.mem_cons_of_mem x h)

lemma poll_throw (s : Client) (i : PollInput)
    (hr : i.apiResult = Except.error ()) :
    _poll s i = { state := s, caughtError := true } := by
  simp [_poll, hr]

lemma poll_fail (s : Client) (i : PollInput) (r : Response)
    (hr : i.apiResult = Except.ok r) (hb : r.success = false) :
    _poll s i =
      if autoReconnectCond r then
        { state := (_handleAutoReconnect s i.regResult).1,
          events := (_handleAutoReconnect s i.regResult).2,
          registerCalled := true }
      else { state := s } := by
  simp only [_poll, hr]
  simp [hb]

lemma poll_offer (s : Client) (i : PollInput) (r : Response)
    (hr : i.apiResult = Except.ok r) (hb : r.success = true)
    (ht : (r.type == some "offer") = true) :
    _poll s i =
      (let s1 := if recoveryCond s r then _handleRecovery s else s
       let o := _handleOffer s1 r i.offerInput
       if o.ok then { state := adoptStatus o.state r, events := o.events }
       else { state := o.state, events := o.events, caughtError := true }) := by
  simp only [_poll, hr]
  simp [hb, ht]

lemma poll_answer (s : Client) (i : PollInput) (r : Response)
    (hr : i.apiResult = Except.ok r) (hb : r.success = true)
    (h1 : (r.type == some "offer") = false)
    (ht : (r.type == some "answer") = true) :
    _poll s i =
      (let s1 := if recoveryCond s r then _handleRecovery s else s
       let o := _handleAnswer s1 r i.answerEngineOk
       if o.ok then { state := adoptStatus o.state r, events := o.events }
       else { state := o.state, events := o.events, caughtError := true }) := by
  simp only [_poll, hr]
  simp [hb, h1, ht]

lemma poll_ice (s : Client) (i : PollInput) (r : Response)
    (hr : i.apiResult = Except.ok r) (hb : r.success = true)
    (h1 : (r.type == some "offer") = false)
    (h2 : (r.type == some "answer") = false)
    (ht : (r.type == some "ice") = true) :
    _poll s i =
      (let s1 := if recoveryCond s r then _handleRecovery s else s
       let o := _handleIce s1 r i.iceEngineOk
       if o.ok then { state := adoptStatus o.state r, events := o.events }
       else { state := o.state, events := o.events, caughtError := true }) := by
  simp only [_poll, hr]
  simp [hb, h1, h2, ht]

lemma poll_noType (s : Client) (i : PollInput) (r : Response)
    (hr : i.apiResult = Except.ok r) (hb : r.success = true)
    (h1 : (r.type == some "offer") = false)
    (h2 : (r.type == some "answer") = false)
    (h3 : (r.type == some "ice") = false) :
    _poll s i =
      (let s1 := if recoveryCond s r then _handleRecovery s else s
       if r.match_list.isEmpty = false then
         if s1.matchList == r.match_list then { state := adoptStatus s1 r }
         else
           { state := adoptStatus { s1 with matchList := r.match_list } r,
             events := [Event.matchFound r.match_list] }
       else { state := adoptStatus s1 r }) := by
  simp only [_poll, hr]
  simp [hb, h1, h2, h3]

lemma connect_flagWrites (s : Client) (pid : String) (ci : ConnectInput) :
    (connect s pid ci).flagWrites = [true, false] := by
  rcases ci with ⟨eok, osdp, g, orr⟩
  cases eok
  · rfl
  · cases orr with
    | error e => rfl
    | ok rr =>
      cases hs : rr.success
      · simp [connect, hs]
      · simp [connect, hs]

lemma connect_flagOff (s : Client) (pid : String) (ci : ConnectInput) :
    (connect s pid ci).state._isProcessingSignal = false := by
  rcases ci with ⟨eok, osdp, g, orr⟩
  cases eok
  · rfl
  · cases orr with
    | error e => rfl
    | ok rr =>
      cases hs : rr.success
      · simp [connect, hs]
      · simp [connect, hs]

lemma recoveryOrNot_matchList (s : Client) (r : Response) :
    (if recoveryCond s r then _handleRecovery s else s).matchList =
      (if recoveryCond s r then [] else s.matchList) := by
  split <;> rfl

/-- C4 counterexample: _handleIce is a Negotiation Controller operation
(it handles inbound candidate frames), yet on a concrete run it makes no
write at all to the Processing Flag — in particular it never sets the
flag true on entry, refuting the claim that every operation does. -/
theorem c4_counterexample :
    c4s._isProcessingSignal = false ∧
    (_handleIce c4s c4r true).flagWrites = [] ∧
    (_handleIce c4s c4r true).state._isProcessingSignal = false := by
  refine ⟨rfl, ?_, ?_⟩ <;> decide

/-- C4 (amended): connect, _handleOffer and _handleAnswer set the
Processing Flag true on entry and false on exit on every path including
failure (their flag-write trace is exactly true then false and they
leave the flag false); _handleIce performs no flag write and leaves the
whole state unchanged; disconnect unconditionally clears the flag.
Hence the flag is false after each flag-writing operation, and an
initially false flag is false before and after every operation. -/
theorem c4_processing_flag (s : Client) (pid : String) (ci : ConnectInput)
    (r : Response) (oi : OfferInput) (aok iok : Bool) :
    (connect s pid ci).flagWrites = [true, false] ∧
    (connect s pid ci).state._isProcessingSignal = false ∧
    (_handleOffer s r oi).flagWrites = [true, false] ∧
    (_handleOffer s r oi).state._isProcessingSignal = false ∧
    (_handleAnswer s r aok).flagWrites = [true, false] ∧
    (_handleAnswer s r aok).state._isProcessingSignal = false ∧
    (_handleIce s r iok).flagWrites = [] ∧
    (_handleIce s r iok).state = s ∧
    (disconnect s).flagWrites = [false] ∧
    (disconnect s).state._isProcessingSignal = false :=
  ⟨connect_flagWrites s pid ci, connect_flagOff s pid ci,
   handleOffer_flagWrites s r oi, handleOffer_flagOff s r oi,
   rfl, rfl,
   handleIce_flagWrites s r iok, handleIce_state s r iok,
   rfl, rfl⟩

/-- C5 counterexample: disconnect emits the disconnected event
unconditionally, so two consecutive calls on a connected client emit it
twice, refuting the claim that the event fires at most once across the
two calls. -/
theorem c5_counterexample :
    ((disconnect c5s).events ++
      (disconnect (disconnect c5s).state).events).count
        (Event.disconnected "user") = 2 := by
  decide

/-- C5 (amended): disconnect raises no error when repeated and is
idempotent on the client state — the second call leaves the state of
the first call unchanged — but each call emits one disconnected event
with reason user, so the event is duplicated rather than suppressed. -/
theorem c5_disconnect_idempotent (s : Client) :
    (disconnect (disconnect s).state).state = (disconnect s).state ∧
    (disconnect (disconnect s).state).events = [Event.disconnected "user"] :=
  ⟨rfl, rfl⟩

/-- C8: for every frame handed to the hard-reset handler, _handleReset
tears down the Transport Engine session and the data channel, clears
selfId, sets status to idle, stops polling, and emits exactly one reset
event carrying the servers message and target status; the emitted
events contain no registration, so this path does not re-register. -/
theorem c8_hard_reset (s : Client) (r : Response) :
    (_handleReset s r).1._peerConnection = none ∧
    (_handleReset s r).1._dataChannel = none ∧
    (_handleReset s r).1.id = none ∧
    (_handleReset s r).1.status = "idle" ∧
    (_handleReset s r).1._pollingTimer = false ∧
    (_handleReset s r).2 = [Event.reset r.next_status r.message] :=
  ⟨rfl, rfl, rfl, rfl, rfl, rfl⟩

/-- C9: the candidate-gathering wait always terminates within the fixed
1000 ms ceiling; it resolves no later than any gathering-complete event
of the schedule, and its resolution time is either the ceiling or the
time of some gathering-complete event — whichever happens first. -/
theorem c9_wait_bounded (evs : List (Nat × String)) :
    _waitForIceCandidates evs ≤ 1000 ∧
    (∀ t, (t, "complete") ∈ evs → _waitForIceCandidates evs ≤ t) ∧
    (_waitForIceCandidates evs = 1000 ∨
      ∃ t, (t, "complete") ∈ evs ∧ _waitForIceCandidates evs = t) := by
  unfold _waitForIceCandidates
  refine ⟨foldl_min_le_init _ _, ?_, ?_⟩
  · intro t ht
    apply foldl_min_le_mem
    refine List.mem_map.mpr ⟨(t, "complete"), ?_, rfl⟩
    refine List.mem_filter.mpr ⟨ht, ?_⟩
    simp
  · rcases foldl_min_eq_init_or_mem
      ((evs.filter (fun e => e.2 == "complete")).map Prod.fst) 1000 with h | h
    · exact Or.inl h
    · right
      rcases List.mem_map.mp h with ⟨e, hin, he⟩
      rcases List.mem_filter.mp hin with ⟨hevs, hcomp⟩
      have hc2 : e.2 = "complete" := by simpa using hcomp
      refine ⟨e.1, ?_, he.symm⟩
      rw [← hc2]
      exact hevs

/-- C9 witness: with gathering events at 300 ms (still gathering) and
700 ms (complete), the wait resolves within 700 ms. -/
theorem c9_wait_bounded_witness :
    _waitForIceCandidates [(300, "gathering"), (700, "complete")] ≤ 700 :=
  (c9_wait_bounded [(300, "gathering"), (700, "complete")]).2.1 700 (by decide)

/-- C10: send throws (and transmits nothing) when no data channel
exists or its readyState is not open, leaving the client state
unchanged; when the channel is open it transmits exactly the JSON
serialization of the data and the state is returned unchanged. -/
theorem c10_send (s : Client) (d : Json) :
    (s._dataChannel = none → send s d = Except.error "接続されていません") ∧
    (∀ ch, s._dataChannel = some ch → ch.readyState ≠ "open" →
      send s d = Except.error "接続されていません") ∧
    (∀ ch, s._dataChannel = some ch → ch.readyState = "open" →
      send s d = Except.ok (s, jsonStringify d)) := by
  refine ⟨?_, ?_, ?_⟩
  · intro h
    simp [send, h]
  · intro ch h hne
    simp [send, h, hne]
  · intro ch h hop
    simp [send, h, hop]

/-- C10 witness: on a client with an open channel, send returns the
serialized payload and the unchanged state. -/
theorem c10_send_witness :
    send c10s (Json.str "hi") =
      Except.ok (c10s, jsonStringify (Json.str "hi")) :=
  (c10_send c10s (Json.str "hi")).2.2 { readyState := "open" } rfl rfl

/-- C1 counterexample: with local status connected, a failed polling
response whose next_status is register triggers auto-reconnection,
which re-registers and adopts the registration responses next_status —
the held connected status is downgraded by a subsequent polling
response, refuting the claim for arbitrary response sequences. -/
theorem c1_counterexample :
    c1s.status = "connected" ∧ (_poll c1s c1i).state.status ≠ "connected" := by
  refine ⟨rfl, ?_⟩
  decide

/-- C1 (amended): once local status is connected, every polling tick
whose response is successful — or failed without triggering the
auto-reconnect condition (next_status register or the user-not-found
message) — leaves status connected: the status adoption step is skipped
whenever local status equals connected.  Only the auto-reconnect path
can replace a connected status, and it does so via the registration
response, not the polling responses next_status. -/
theorem c1_connected_status_preserved (s : Client) (i : PollInput) (r : Response)
    (hs : s.status = "connected") (hr : i.apiResult = Except.ok r)
    (h : r.success = true ∨ autoReconnectCond r = false) :
    (_poll s i).state.status = "connected" := by
  have hs1 : (if recoveryCond s r then _handleRecovery s else s).status = "connected" := by
    rw [recoveryOrNot_status]
    exact hs
  cases hb : r.success with
  | false =>
    have hcond : autoReconnectCond r = false := by
      rcases h with h1 | h1
      · rw [hb] at h1; cases h1
      · exact h1
    rw [poll_fail s i r hr hb]
    simp [hcond, hs]
  | true =>
    cases ht1 : (r.type == some "offer") with
    | true =>
      rw [poll_offer s i r hr hb ht1]
      cases hok : (_handleOffer (if recoveryCond s r then _handleRecovery s else s)
          r i.offerInput).ok with
      | true =>
        simp only [hok]
        exact adoptStatus_status_of_connected _ _ ((handleOffer_status _ _ _).trans hs1)
      | false =>
        simp only [hok]
        exact (handleOffer_status _ _ _).trans hs1
    | false =>
      cases ht2 : (r.type == some "answer") with
      | true =>
        rw [poll_answer s i r hr hb ht1 ht2]
        cases hok : (_handleAnswer (if recoveryCond s r then _handleRecovery s else s)
            r i.answerEngineOk).ok with
        | true =>
          simp only [hok]
          exact adoptStatus_status_of_connected _ _ hs1
        | false =>
          simp only [hok]
          exact hs1
      | false =>
        cases ht3 : (r.type == some "ice") with
        | true =>
          rw [poll_ice s i r hr hb ht1 ht2 ht3]
          cases hok : (_handleIce (if recoveryCond s r then _handleRecovery s else s)
              r i.iceEngineOk).ok with
          | true =>
            simp only [hok]
            refine adoptStatus_status_of_connected _ _ ?_
            rw [handleIce_state]
            exact hs1
          | false =>
            simp only [hok]
            rw [handleIce_state]
            exact hs1
        | false =>
          rw [poll_noType s i r hr hb ht1 ht2 ht3]
          cases hne : r.match_list.isEmpty with
          | true =>
            simp only [hne]
            exact adoptStatus_status_of_connected _ _ hs1
          | false =>
            simp only [hne]
            cases heq : ((if recoveryCond s r then _handleRecovery s else s).matchList
                == r.match_list) with
            | true =>
              simp only [heq, if_pos rfl]
              exact adoptStatus_status_of_connected _ _ hs1
            | false =>
              exact adoptStatus_status_of_connected _ _ hs1

/-- C1 witness: a connected client receiving a successful stale
wait_offer poll keeps status connected. -/
theorem c1_connected_status_preserved_witness :
    (_poll c1ws c1wi).state.status = "connected" :=
  c1_connected_status_preserved c1ws c1wi c1wr rfl rfl (Or.inl rfl)

/-- C3: a successful polling response carrying the pre-negotiation
waiting state (the source string wait_offer, called waiting_for_offer
by the specification) while a peer is assigned and the Processing Flag
is false triggers soft recovery: the Transport Engine session and data
channel are torn down, peerId, peerName, the match list and the pending
candidates are cleared, selfId is retained unchanged, the polling timer
keeps its state (polling keeps running), no registration call is made
and no event is emitted.  The frame carries no type and no match list,
as in the specification scenario. -/
theorem c3_soft_recovery (s : Client) (i : PollInput) (r : Response)
    (hr : i.apiResult = Except.ok r) (hb : r.success = true)
    (hns : r.next_status = "wait_offer") (hpeer : optStrTruthy s.peerId = true)
    (hflag : s._isProcessingSignal = false)
    (htype : r.type = none) (hml : r.match_list = []) :
    (_poll s i).state.peerId = none ∧
    (_poll s i).state.peerName = none ∧
    (_poll s i).state.matchList = [] ∧
    (_poll s i).state._pendingCandidates = [] ∧
    (_poll s i).state._peerConnection = none ∧
    (_poll s i).state._dataChannel = none ∧
    (_poll s i).state.id = s.id ∧
    (_poll s i).state._pollingTimer = s._pollingTimer ∧
    (_poll s i).registerCalled = false ∧
    (_poll s i).events = [] := by
  have h1 : (r.type == some "offer") = false := by simp [htype]
  have h2 : (r.type == some "answer") = false := by simp [htype]
  have h3 : (r.type == some "ice") = false := by simp [htype]
  have hrec : recoveryCond s r = true := by
    simp [recoveryCond, hns, hpeer, hflag]
  rw [poll_noType s i r hr hb h1 h2 h3]
  simp [hrec, hml, adoptStatus_peerId, adoptStatus_peerName,
    adoptStatus_matchList, adoptStatus_pending, adoptStatus_pc,
    adoptStatus_dc, adoptStatus_id, adoptStatus_timer, _handleRecovery]

/-- C3 witness: the specification scenario on a concrete mid-negotiation
client — peer fields cleared, selfId retained, polling timer unchanged,
no registration call. -/
theorem c3_soft_recovery_witness :
    (_poll c3s c3i).state.peerId = none ∧
    (_poll c3s c3i).state.id = c3s.id ∧
    (_poll c3s c3i).state._pollingTimer = c3s._pollingTimer ∧
    (_poll c3s c3i).registerCalled = false := by
  have h := c3_soft_recovery c3s c3i c3r rfl rfl rfl (by decide) rfl rfl rfl
  exact ⟨h.1, h.2.2.2.2.2.2.1, h.2.2.2.2.2.2.2.1, h.2.2.2.2.2.2.2.2.1⟩

/-- C6 counterexample: a successful polling response typed ice that also
carries a non-empty match-candidate list differing from the held (empty)
list neither replaces the held list nor emits matchFound — the
match-list step is an else-branch of the type routing — refuting the
claim for arbitrary responses. -/
theorem c6_counterexample :
    c6r.match_list ≠ c6s.matchList ∧
    (_poll c6s c6i).state.matchList ≠ c6r.match_list ∧
    Event.matchFound c6r.match_list ∉ (_poll c6s c6i).events := by
  refine ⟨by decide, by decide, by decide⟩

/-- C6 (amended): for every successful polling response that is not
routed as offer, answer or ice and carries a non-empty match-candidate
list, the held list is replaced by the received list verbatim and
matchFound is emitted with exactly that list iff the received list
differs, under structural equality, from the list held when the step
runs (the same tick may first have cleared it by soft recovery); if the
lists are equal, nothing is replaced and matchFound is not re-emitted.
Failed or offer/answer/ice-typed responses skip the step entirely. -/
theorem c6_match_list_update (s : Client) (i : PollInput) (r : Response)
    (hr : i.apiResult = Except.ok r) (hb : r.success = true)
    (h1 : (r.type == some "offer") = false)
    (h2 : (r.type == some "answer") = false)
    (h3 : (r.type == some "ice") = false)
    (hml : r.match_list ≠ []) :
    ((r.match_list ≠ (if recoveryCond s r then [] else s.matchList)) →
      (_poll s i).state.matchList = r.match_list ∧
      (_poll s i).events = [Event.matchFound r.match_list]) ∧
    ((r.match_list = (if recoveryCond s r then [] else s.matchList)) →
      (_poll s i).state.matchList = (if recoveryCond s r then [] else s.matchList) ∧
      (_poll s i).events = []) := by
  have hne : r.match_list.isEmpty = false := by
    cases hm : r.match_list with
    | nil => exact absurd hm hml
    | cons a l => rfl
  rw [poll_noType s i r hr hb h1 h2 h3]
  constructor
  · intro hdiff
    have hbeq : ((if recoveryCond s r then _handleRecovery s else s).matchList
        == r.match_list) = false := by
      rw [recoveryOrNot_matchList]
      exact beq_eq_false_iff_ne.mpr (fun hh => hdiff hh.symm)
    simp [hne, hbeq, adoptStatus_matchList]
  · intro heq
    have hbeq : ((if recoveryCond s r then _handleRecovery s else s).matchList
        == r.match_list) = true := by
      rw [recoveryOrNot_matchList]
      exact beq_iff_eq.mpr heq.symm
    simp [hne, hbeq, adoptStatus_matchList, recoveryOrNot_matchList, ← heq]

/-- C6 witness: a fresh one-element match list received by a client
holding an empty list replaces the list and fires matchFound once with
exactly the received list. -/
theorem c6_match_list_update_witness :
    (_poll c6ws c6wi).state.matchList = c6wr.match_list ∧
    (_poll c6ws c6wi).events = [Event.matchFound c6wr.match_list] := by
  have h := c6_match_list_update c6ws c6wi c6wr rfl rfl (by decide) (by decide)
    (by decide) (by decide)
  exact h.1 (by decide)

/-- C2: a failed polling response invokes the automatic-reconnect path
exactly when the failure names the re-register condition (next_status
register, or the user-not-found message that the specification calls
session not found): registerCalled equals the condition.  When taken,
selfId is cleared and polling stopped before re-registration; if the
re-registration fails the client ends with no id, polling stopped and
an error event emitted, while if it succeeds no error event is emitted
and polling is running again.  Any other failed response is ignored:
state unchanged, no events, no registration — retried next tick. -/
theorem c2_failed_poll_autoreconnect (s : Client) (i : PollInput) (r : Response)
    (hr : i.apiResult = Except.ok r) (hb : r.success = false) :
    (_poll s i).registerCalled = autoReconnectCond r ∧
    (autoReconnectCond r = true →
      (regFailed i.regResult = true →
        (_poll s i).state.id = none ∧
        (_poll s i).state._pollingTimer = false ∧
        Event.error ∈ (_poll s i).events) ∧
      (regFailed i.regResult = false →
        Event.error ∉ (_poll s i).events ∧
        (_poll s i).state._pollingTimer = true)) ∧
    (autoReconnectCond r = false →
      (_poll s i).state = s ∧ (_poll s i).events = [] ∧
      (_poll s i).registerCalled = false) := by
  rw [poll_fail s i r hr hb]
  cases hc : autoReconnectCond r with
  | false => simp
  | true =>
    refine ⟨by simp, ?_, ?_⟩
    · intro _
      constructor
      · intro hrf
        cases hreg : i.regResult with
        | error e =>
          simp [_handleAutoReconnect, register, reconnectCleanup, hreg]
        | ok rr =>
          cases hsr : rr.success with
          | true =>
            rw [hreg] at hrf
            simp [regFailed, hsr] at hrf
          | false =>
            simp [_handleAutoReconnect, register, reconnectCleanup, hreg, hsr]
      · intro hrf
        cases hreg : i.regResult with
        | error e =>
          rw [hreg] at hrf
          simp [regFailed] at hrf
        | ok rr =>
          cases hsr : rr.success with
          | false =>
            rw [hreg] at hrf
            simp [regFailed, hsr] at hrf
          | true =>
            by_cases hml : rr.match_list.isEmpty
            · simp [_handleAutoReconnect, register, reconnectCleanup, hreg, hsr, hml]
            · simp [_handleAutoReconnect, register, reconnectCleanup, hreg, hsr, hml]
    · intro hcontra
      simp at hcontra

/-- C2 witness: the session-not-found scenario with a successful
re-registration — the auto-reconnect path is taken and polling runs
again afterwards. -/
theorem c2_failed_poll_autoreconnect_witness :
    (_poll c2s c2i).registerCalled = autoReconnectCond c2r ∧
    (_poll c2s c2i).state._pollingTimer = true := by
  have h := c2_failed_poll_autoreconnect c2s c2i c2r rfl rfl
  exact ⟨h.1, ((h.2.1 (by decide)).2 (by decide)).2⟩

/-- C7: whenever the try/catch wrapping one polling tick catches an
exception — the polling call threw, or a routed offer/answer/ice
handler rejected — the tick returns normally (caughtError records the
catch-and-log) and leaves the polling timer exactly as it was: a ticks
failure never stops the repeating polling loop. -/
theorem c7_tick_exception_containment (s : Client) (i : PollInput)
    (h : (_poll s i).caughtError = true) :
    (_poll s i).state._pollingTimer = s._pollingTimer := by
  cases hapi : i.apiResult with
  | error e =>
    cases e
    rw [poll_throw s i hapi]
  | ok r =>
    cases hb : r.success with
    | false =>
      rw [poll_fail s i r hapi hb] at h ⊢
      split at h
      · simp at h
      · simp at h
    | true =>
      cases ht1 : (r.type == some "offer") with
      | true =>
        rw [poll_offer s i r hapi hb ht1] at h ⊢
        cases hok : (_handleOffer (if recoveryCond s r then _handleRecovery s else s)
            r i.offerInput).ok with
        | true => simp [hok] at h
        | false =>
          simp only [hok, Bool.false_eq_true, if_false]
          exact (handleOffer_timer _ _ _).trans (recoveryOrNot_timer s r)
      | false =>
        cases ht2 : (r.type == some "answer") with
        | true =>
          rw [poll_answer s i r hapi hb ht1 ht2] at h ⊢
          cases hok : (_handleAnswer (if recoveryCond s r then _handleRecovery s else s)
              r i.answerEngineOk).ok with
          | true => simp [hok] at h
          | false =>
            simp only [hok] at h ⊢
            exact recoveryOrNot_timer s r
        | false =>
          cases ht3 : (r.type == some "ice") with
          | true =>
            rw [poll_ice s i r hapi hb ht1 ht2 ht3] at h ⊢
            cases hok : (_handleIce (if recoveryCond s r then _handleRecovery s else s)
                r i.iceEngineOk).ok with
            | true => simp [hok] at h
            | false =>
              simp only [hok, Bool.false_eq_true, if_false]
              exact (congrArg Client._pollingTimer
                (handleIce_state _ _ _)).trans (recoveryOrNot_timer s r)
          | false =>
            have hcaught : (_poll s i).caughtError = false := by
              rw [poll_noType s i r hapi hb ht1 ht2 ht3]
              by_cases he : r.match_list.isEmpty = false <;>
                by_cases hq : ((if recoveryCond s r then _handleRecovery s
                    else s).matchList == r.match_list) = true <;>
                simp [he, hq]
            rw [hcaught] at h
            exact Bool.noConfusion h

/-- C7 witness: a tick whose polling request throws on the network is
caught and leaves the running polling timer untouched. -/
theorem c7_tick_exception_containment_witness :
    (_poll c7s c7i).state._pollingTimer = c7s._pollingTimer :=
  c7_tick_exception_containment c7s c7i rfl
